import Mathlib

/- Batteries marks the `Rat` arithmetic operations `@[irreducible]`,
which blocks `decide`-style evaluation of the embedded code on ℚ; mark
them semireducible again (the kernel has fast built-in support for the
underlying `Nat` arithmetic). -/
set_option allowUnsafeReducibility true in
attribute [semireducible] Rat.add

set_option allowUnsafeReducibility true in
attribute [semireducible] Rat.mul

set_option allowUnsafeReducibility true in
attribute [semireducible] Rat.sub

set_option allowUnsafeReducibility true in
attribute [semireducible] Rat.inv

/-!
Verification development for the unified-semantic-archiver core:
a shallow embedding of `continuum_db.py` (tenant-scoped storage, geohash
encoding, library-document search) and `nasa_ingestion.py` (Horizons
parser and the ingestion job runner), with theorems settling the spec
claims about them.

Modelling conventions:
* Python floats are modelled as `ℚ`.  Every float operation exercised by
  the claims (halving of geohash interval bounds, decimal/scientific
  literal parsing, comparisons) is exact on dyadic/decimal rationals at
  the magnitudes involved, so the `ℚ` model agrees with IEEE doubles
  there.
* SQLite tables are lists of rows in insertion order; the autoincrement
  id of the row at index `k` is `k + 1`, matching `lastrowid` for these
  insert-only tables.
* `datetime('now')` timestamps are abstract `ℕ` ticks supplied by the
  caller.
-/

/-- Python's `str.strip` whitespace set (also `\s` for ASCII in `re`). -/
def pyIsSpace (c : Char) : Bool :=
  c = ' ' || c = '\t' || c = '\n' || c = '\r' || c = '\x0b' || c = '\x0c'

def pyStripList (cs : List Char) : List Char :=
  ((cs.dropWhile pyIsSpace).reverse.dropWhile pyIsSpace).reverse

/-- Python `s.strip()`. -/
def pyStrip (s : String) : String :=
  String.mk (pyStripList s.data)

/-- The tenant normalisation `(tenant_id or "").strip() or "default"`
applied by every tenant-scoped operation in `continuum_db.py`. -/
def tenantNorm (t : String) : String :=
  let s := pyStrip t
  if s = "" then "default" else s

/-- `_GEOHASH_ALPHABET = "0123456789bcdefghjkmnopqrstuvwxyz"` from
`continuum_db.py` line 17.  Note this table has 33 characters and
includes the letter o (between n and p). -/
def geohashAlphabet : List Char :=
  "0123456789bcdefghjkmnopqrstuvwxyz".data

/-- The 32-symbol standard geohash alphabet as the spec words it
(`0-9b-hjkmnp-z`, excluding a, i, l, o).  Spec-side definition used only
to compare against the code's table. -/
def standardGeohashAlphabet : List Char :=
  "0123456789bcdefghjkmnpqrstuvwxyz".data

/-- Loop body/state of `_geohash_encode`: arguments are
`latLo latHi lonLo lonHi bits bit acc fuel`, mirroring the Python local
variables; `fuel` bounds the number of remaining bit-steps (the loop
runs `while len(result) < precision`, one bit per iteration, so
`5 * precision` steps always suffice; the explicit length check below
reproduces the loop condition). -/
def geohashAux (lat lon : ℚ) (precision : ℕ) :
    ℚ → ℚ → ℚ → ℚ → ℕ → ℕ → List Char → ℕ → List Char
  | _, _, _, _, _, _, acc, 0 => acc
  | latLo, latHi, lonLo, lonHi, bits, bit, acc, fuel + 1 =>
    if precision ≤ acc.length then acc
    else
      let step :=
        if bit % 2 = 0 then
          let mid := (lonLo + lonHi) / 2
          if mid ≤ lon then (2 * bits + 1, latLo, latHi, mid, lonHi)
          else (2 * bits, latLo, latHi, lonLo, mid)
        else
          let mid := (latLo + latHi) / 2
          if mid ≤ lat then (2 * bits + 1, mid, latHi, lonLo, lonHi)
          else (2 * bits, latLo, mid, lonLo, lonHi)
      match step with
      | (bits2, a, b, c, d) =>
        if bit + 1 = 5 then
          geohashAux lat lon precision a b c d 0 0
            (acc ++ [geohashAlphabet.getD bits2 '?']) fuel
        else
          geohashAux lat lon precision a b c d bits2 (bit + 1) acc fuel

/-- `_geohash_encode(lat, lon, precision)` from `continuum_db.py`. -/
def geohash_encode (lat lon : ℚ) (precision : ℕ) : String :=
  String.mk (geohashAux lat lon precision (-90) 90 (-180) 180 0 0 [] (5 * precision))

/-- A row of the `library_documents` table (the columns
`library_document_insert` writes; `type_metadata` holds the serialized
string — `json.dumps` output for dict input — or NULL). -/
structure LibRow where
  document_type : String
  blob_ref : Option String
  url : Option String
  type_metadata : Option String
  owner_id : Option String
  tenant_id : String
  lat : Option ℚ
  lon : Option ℚ
  altitude_m : Option ℚ
  geohash : Option String
  deriving Repr, DecidableEq

/-- The `library_documents` table: rows in insertion order, the id of
the row at index `k` being `k + 1`. -/
structure LibState where
  rows : List LibRow
  deriving Repr, DecidableEq

/-- The row `library_document_insert` writes. -/
def libInsertRow (document_type : String) (blob_ref url type_metadata owner_id : Option String)
    (tenant_id : String) (lat lon altitude_m : Option ℚ) : LibRow :=
  let gh : Option String :=
    match lat, lon with
    | some la, some lo => some (geohash_encode la lo 7)
    | _, _ => none
  { document_type := document_type, blob_ref := blob_ref, url := url,
    type_metadata := type_metadata, owner_id := owner_id,
    tenant_id := tenantNorm tenant_id, lat := lat, lon := lon,
    altitude_m := altitude_m, geohash := gh }

/-- `ContinuumDb.library_document_insert`: computes the geohash iff both
lat and lon are present, normalises the tenant, appends the row and
returns `lastrowid`. -/
def library_document_insert (st : LibState) (document_type : String)
    (blob_ref url type_metadata owner_id : Option String) (tenant_id : String)
    (lat lon altitude_m : Option ℚ) : LibState × ℕ :=
  (⟨st.rows ++ [libInsertRow document_type blob_ref url type_metadata owner_id
      tenant_id lat lon altitude_m]⟩,
   st.rows.length + 1)

/-- `ContinuumDb.library_document_get`:
`SELECT * WHERE id = ? AND tenant_id = ?` (fetchone). -/
def library_document_get (st : LibState) (doc_id : ℕ) (tenant_id : String) :
    Option LibRow :=
  match st.rows.get? (doc_id - 1) with
  | some r => if 1 ≤ doc_id ∧ r.tenant_id = tenantNorm tenant_id then some r else none
  | none => none

/-- `ContinuumDb.library_document_list`: tenant filter, optional
`document_type` filter (applied only when the Python value is truthy,
i.e. a non-empty string), `ORDER BY id DESC LIMIT ?`. -/
def library_document_list (st : LibState) (document_type : Option String)
    (tenant_id : String) (limit : ℕ) : List LibRow :=
  let tenant := tenantNorm tenant_id
  ((st.rows.filter (fun r =>
      r.tenant_id == tenant &&
      (match document_type with
       | some s => if s = "" then true else r.document_type == s
       | none => true))).reverse).take limit

/-- ASCII case folding as performed by SQLite's default `LIKE`
(characters A–Z compare equal to a–z; everything else is exact). -/
def asciiFold (c : Char) : Char :=
  if 'A' ≤ c ∧ c ≤ 'Z' then Char.ofNat (c.toNat + 32) else c

/-- SQLite `LIKE` pattern matching: `%` matches any sequence of zero or
more characters (equivalently, the rest of the pattern matches some
suffix), an underscore matches exactly one character, any other pattern
character matches one text character up to ASCII case folding. -/
def likeMatch : List Char → List Char → Bool
  | [], s => s.isEmpty
  | '%' :: ps, s => s.tails.any (fun t => likeMatch ps t)
  | '_' :: ps, s =>
    match s with
    | [] => false
    | _ :: t => likeMatch ps t
  | p :: ps, s =>
    match s with
    | [] => false
    | c :: t => (asciiFold p = asciiFold c) && likeMatch ps t

/-- `column LIKE pattern` for a nullable column: SQL `NULL LIKE p`
yields NULL, which is not true, so the row is not selected on it. -/
def likeOpt (pat : List Char) (v : Option String) : Bool :=
  match v with
  | some s => likeMatch pat s.data
  | none => false

/-- ℕ to ℚ by direct construction (`Nat.cast` into the Mathlib
hierarchy does not evaluate on large numerals). -/
def natToQ (n : ℕ) : ℚ := mkRat (Int.ofNat n) 1

/-- Exact power of ten over ℚ. -/
def qpow10 (n : ℕ) : ℚ := natToQ (10 ^ n)

/-- Decimal digit chars to ℕ. -/
def digitsToNat (cs : List Char) : ℕ :=
  cs.foldl (fun a c => a * 10 + (c.toNat - 48)) 0

/-- Python `float(s)` on a finite decimal/scientific literal
(`[+-]? digits [. digits] [(e|E) [+-]? digits]`, at least one mantissa
digit, nothing after the exponent), evaluated exactly over ℚ.  Returns
`none` where `float` raises `ValueError`.  (The textual forms "inf",
"infinity" and "nan", which ℚ cannot carry, are not modelled; no claim
exercises them.) -/
def pyFloatCore (cs0 : List Char) : Option ℚ :=
  let sgn : ℚ := if cs0.head? = some '-' then -1 else 1
  let cs1 := match cs0 with
    | '-' :: t => t
    | '+' :: t => t
    | t => t
  let ip := cs1.takeWhile Char.isDigit
  let r1 := cs1.dropWhile Char.isDigit
  let hasDot := r1.head? = some '.'
  let afterDot := if hasDot then r1.tail else r1
  let fp := if hasDot then afterDot.takeWhile Char.isDigit else []
  let r2 := if hasDot then afterDot.dropWhile Char.isDigit else r1
  if ip = [] ∧ fp = [] then none
  else
    let mant : ℚ := sgn * natToQ (digitsToNat (ip ++ fp)) / qpow10 fp.length
    match r2 with
    | [] => some mant
    | e :: t =>
      if e = 'e' ∨ e = 'E' then
        let t1 := match t with
          | '-' :: u => u
          | '+' :: u => u
          | u => u
        let negExp := t.head? = some '-'
        let ed := t1.takeWhile Char.isDigit
        let t2 := t1.dropWhile Char.isDigit
        if ed = [] ∨ t2 ≠ [] then none
        else if negExp then some (mant / qpow10 (digitsToNat ed))
        else some (mant * qpow10 (digitsToNat ed))
      else none

/-- Python `float(s)` (which tolerates surrounding whitespace). -/
def pyFloat (s : String) : Option ℚ :=
  pyFloatCore (pyStripList s.data)

/-- The Python `distance_mi` argument, whose runtime value may be a
number or a string (`float | str`). -/
inductive DistArg where
  | num (x : ℚ)
  | text (s : String)
  deriving Repr, DecidableEq

/-- The in-memory location filter of `library_document_search`
(lines 330–345): active only when lat, lon and `distance_mi` are all
present and `distance_mi` is not the string "infinite"; a string that
fails `float()` disables it; distance 0 selects geohash-bucket equality;
any other distance selects rows with both coordinates stored whose
distance (per the supplied distance function, the code's Haversine) is
at most the threshold.  The distance function is a parameter because the
code's `_haversine_mi` is floating-point trigonometry. -/
def locFilter (dFn : ℚ → ℚ → ℚ → ℚ → ℚ) (lat lon : Option ℚ)
    (distance_mi : Option DistArg) (rows : List LibRow) : List LibRow :=
  match lat, lon, distance_mi with
  | some la, some lo, some d =>
    if d = DistArg.text "infinite" then rows
    else
      let distOpt : Option ℚ :=
        match d with
        | DistArg.num x => some x
        | DistArg.text s => pyFloat s
      match distOpt with
      | none => rows
      | some dist =>
        if dist = 0 then
          rows.filter (fun r => r.geohash == some (geohash_encode la lo 7))
        else
          rows.filter (fun r =>
            match r.lat, r.lon with
            | some rla, some rlo => decide (dFn la lo rla rlo ≤ dist)
            | _, _ => false)
  | _, _, _ => rows

/-- The SQL-side row predicate of `library_document_search`: tenant
equality, `document_type` equality when truthy, and
`(type_metadata LIKE %q% OR url LIKE %q%)` when `q` is truthy. -/
def searchSqlPred (document_type : Option String) (q : Option String)
    (tenant : String) (r : LibRow) : Bool :=
  r.tenant_id == tenant &&
  (match document_type with
   | some s => if s = "" then true else r.document_type == s
   | none => true) &&
  (match q with
   | some s =>
     if s = "" then true
     else
       let pat := '%' :: (s.data ++ ['%'])
       likeOpt pat r.type_metadata || likeOpt pat r.url
   | none => true)

/-- `ContinuumDb.library_document_search`: SQL filters and
`ORDER BY id DESC` materialise the candidate rows, the location filter
runs in Python, and the result is truncated with `rows[:limit]`. -/
def library_document_search (dFn : ℚ → ℚ → ℚ → ℚ → ℚ) (st : LibState)
    (document_type : Option String) (q : Option String)
    (lat lon : Option ℚ) (distance_mi : Option DistArg)
    (tenant_id : String) (limit : ℕ) : List LibRow :=
  let tenant := tenantNorm tenant_id
  let base := (st.rows.filter (searchSqlPred document_type q tenant)).reverse
  (locFilter dFn lat lon distance_mi base).take limit

/-- The location filter only ever narrows the materialised row set. -/
theorem locFilter_eq_self_or_filter (dFn : ℚ → ℚ → ℚ → ℚ → ℚ)
    (lat lon : Option ℚ) (d : Option DistArg) (rows : List LibRow) :
    locFilter dFn lat lon d rows = rows ∨
      ∃ p : LibRow → Bool, locFilter dFn lat lon d rows = rows.filter p := by
  cases lat with
  | none => left; rfl
  | some la =>
    cases lon with
    | none => left; rfl
    | some lo =>
      cases d with
      | none => left; rfl
      | some dd =>
        simp only [locFilter]
        split
        · left; rfl
        · split
          · left; rfl
          · split
            · right; exact ⟨_, rfl⟩
            · right; exact ⟨_, rfl⟩

/-- Any row produced by `library_document_search` came from the table
and satisfies the SQL-side predicate. -/
theorem sqlPred_of_mem_search (dFn : ℚ → ℚ → ℚ → ℚ → ℚ) (st : LibState)
    (dt q : Option String) (lat lon : Option ℚ) (d : Option DistArg)
    (t : String) (lim : ℕ) (r : LibRow)
    (h : r ∈ library_document_search dFn st dt q lat lon d t lim) :
    r ∈ st.rows ∧ searchSqlPred dt q (tenantNorm t) r = true := by
  simp only [library_document_search] at h
  have h2 := List.mem_of_mem_take h
  have h3 : r ∈ (st.rows.filter (searchSqlPred dt q (tenantNorm t))).reverse := by
    rcases locFilter_eq_self_or_filter dFn lat lon d
        ((st.rows.filter (searchSqlPred dt q (tenantNorm t))).reverse) with he | ⟨p, he⟩
    · rwa [he] at h2
    · rw [he] at h2; exact List.mem_of_mem_filter h2
  have h4 := List.mem_reverse.mp h3
  exact ⟨List.mem_of_mem_filter h4, List.of_mem_filter h4⟩

/-- `tenantNorm` of a non-blank tenant is its stripped form. -/
theorem tenantNorm_of_nonblank (t : String) (h : pyStrip t ≠ "") :
    tenantNorm t = pyStrip t := by
  simp [tenantNorm, h]

/-- C1: a document inserted via `library_document_insert` under tenant A
(A and B non-blank and distinct after trimming) is returned by
`library_document_get` with the returned id under A, is not found under
B, and no read operation (`get`, `list`, `search`) returns a row whose
stored tenant differs from the normalised query tenant. -/
theorem library_document_tenant_isolation
    (st : LibState) (dty : String) (br u md ow : Option String)
    (A B : String) (la lo alt : Option ℚ)
    (hA : pyStrip A ≠ "") (hB : pyStrip B ≠ "") (hAB : pyStrip A ≠ pyStrip B) :
    library_document_get (library_document_insert st dty br u md ow A la lo alt).1
        (library_document_insert st dty br u md ow A la lo alt).2 A
      = some (libInsertRow dty br u md ow A la lo alt)
    ∧ library_document_get (library_document_insert st dty br u md ow A la lo alt).1
        (library_document_insert st dty br u md ow A la lo alt).2 B = none
    ∧ (∀ (st2 : LibState) (t : String) (j : ℕ) (r : LibRow),
        library_document_get st2 j t = some r → r.tenant_id = tenantNorm t)
    ∧ (∀ (st2 : LibState) (dt2 : Option String) (t : String) (lim : ℕ) (r : LibRow),
        r ∈ library_document_list st2 dt2 t lim → r.tenant_id = tenantNorm t)
    ∧ (∀ (dFn : ℚ → ℚ → ℚ → ℚ → ℚ) (st2 : LibState) (dt2 q2 : Option String)
        (lat2 lon2 : Option ℚ) (d2 : Option DistArg) (t : String) (lim : ℕ)
        (r : LibRow),
        r ∈ library_document_search dFn st2 dt2 q2 lat2 lon2 d2 t lim →
          r.tenant_id = tenantNorm t) := by
  have hrowT : (libInsertRow dty br u md ow A la lo alt).tenant_id = tenantNorm A := rfl
  have hget : (st.rows ++ [libInsertRow dty br u md ow A la lo alt]).get?
      (st.rows.length + 1 - 1) = some (libInsertRow dty br u md ow A la lo alt) := by
    simp [show st.rows.length + 1 - 1 = st.rows.length from rfl,
      List.get?_eq_getElem?, List.getElem?_concat_length]
  refine ⟨?_, ?_, ?_, ?_, ?_⟩
  · simp only [library_document_get, library_document_insert, hget]
    rw [if_pos ⟨Nat.le_add_left 1 _, rfl⟩]
  · simp only [library_document_get, library_document_insert, hget]
    rw [if_neg]
    intro hcon
    have : tenantNorm A = tenantNorm B := hcon.2
    rw [tenantNorm_of_nonblank A hA, tenantNorm_of_nonblank B hB] at this
    exact hAB this
  · intro st2 t j r h
    simp only [library_document_get] at h
    split at h
    · split at h
      · next hc => exact (Option.some.injEq _ _ ▸ h) ▸ hc.2
      · exact absurd h (by simp)
    · exact absurd h (by simp)
  · intro st2 dt2 t lim r h
    simp only [library_document_list] at h
    have h2 := List.mem_reverse.mp (List.mem_of_mem_take h)
    have h3 := List.of_mem_filter h2
    simp only [Bool.and_eq_true, beq_iff_eq] at h3
    exact h3.1
  · intro dFn st2 dt2 q2 lat2 lon2 d2 t lim r h
    have h2 := (sqlPred_of_mem_search dFn st2 dt2 q2 lat2 lon2 d2 t lim r h).2
    simp only [searchSqlPred, Bool.and_eq_true, beq_iff_eq] at h2
    exact h2.1.1

/-- Witness for C1 at a concrete state and tenants. -/
theorem library_document_tenant_isolation_spot :
    library_document_get
        (library_document_insert ⟨[]⟩ "video" none none none none "team-a" none none none).1
        (library_document_insert ⟨[]⟩ "video" none none none none "team-a" none none none).2
        "team-a"
      = some (libInsertRow "video" none none none none "team-a" none none none)
    ∧ library_document_get
        (library_document_insert ⟨[]⟩ "video" none none none none "team-a" none none none).1
        (library_document_insert ⟨[]⟩ "video" none none none none "team-a" none none none).2
        "team-b" = none := by
  have h := library_document_tenant_isolation ⟨[]⟩ "video" none none none none
    "team-a" "team-b" none none none (by decide) (by decide) (by decide)
  exact ⟨h.1, h.2.1⟩

/-- C4: refutation by evaluation.  The code's alphabet table has 33
characters and includes the letter o (its own comment calls it the
standard one), so `_geohash_encode(-50, 140, 7)` = "obw0y8o" starts with
o — a character the claim's standard 32-symbol alphabet excludes. -/
theorem geohash_encode_emits_excluded_letter :
    geohash_encode (-50) 140 7 = "obw0y8o"
    ∧ 'o' ∈ (geohash_encode (-50) 140 7).data
    ∧ 'o' ∉ standardGeohashAlphabet
    ∧ (geohash_encode (-50) 140 7).length = 7
    ∧ geohashAlphabet.length = 33 := by
  refine ⟨by decide, by decide, by decide,
    by decide, by decide⟩

/-- C5: the location-filter modes of `library_document_search` when a
probe point (lat, lon) is supplied.  `dFn` abstracts the code's
`_haversine_mi` (floating-point trigonometry); every conjunct holds for
any distance function, in particular for Haversine.  Distance 0 keeps
exactly the rows whose stored geohash equals the probe's 7-character
geohash; any other numeric distance keeps exactly the rows with both
coordinates stored and distance at most the threshold; the string
"infinite" or an absent distance applies no location filtering; every
mode truncates to at most `limit` rows. -/
theorem library_document_search_location_modes
    (dFn : ℚ → ℚ → ℚ → ℚ → ℚ) (st : LibState) (dt q : Option String)
    (tenant : String) (limit : ℕ) (la lo : ℚ) :
    (library_document_search dFn st dt q (some la) (some lo)
        (some (DistArg.num 0)) tenant limit
      = (((st.rows.filter (searchSqlPred dt q (tenantNorm tenant))).reverse).filter
          (fun r => r.geohash == some (geohash_encode la lo 7))).take limit)
    ∧ (∀ d : ℚ, d ≠ 0 →
        library_document_search dFn st dt q (some la) (some lo)
            (some (DistArg.num d)) tenant limit
          = (((st.rows.filter (searchSqlPred dt q (tenantNorm tenant))).reverse).filter
              (fun r => match r.lat, r.lon with
                | some rla, some rlo => decide (dFn la lo rla rlo ≤ d)
                | _, _ => false)).take limit)
    ∧ (library_document_search dFn st dt q (some la) (some lo)
          (some (DistArg.text "infinite")) tenant limit
        = ((st.rows.filter (searchSqlPred dt q (tenantNorm tenant))).reverse).take limit)
    ∧ (library_document_search dFn st dt q (some la) (some lo) none tenant limit
        = ((st.rows.filter (searchSqlPred dt q (tenantNorm tenant))).reverse).take limit)
    ∧ (∀ (lat2 lon2 : Option ℚ) (d2 : Option DistArg),
        (library_document_search dFn st dt q lat2 lon2 d2 tenant limit).length ≤ limit) := by
  refine ⟨?_, ?_, ?_, ?_, ?_⟩
  · simp [library_document_search, locFilter]
  · intro d hd
    simp [library_document_search, locFilter, hd]
  · simp [library_document_search, locFilter]
  · simp [library_document_search, locFilter]
  · intro lat2 lon2 d2
    simp only [library_document_search]
    exact List.length_take_le _ _

/-- Witness for C5 at a concrete probe, distance and state. -/
theorem library_document_search_location_modes_witness :
    library_document_search (fun _ _ _ _ => (0 : ℚ)) ⟨[]⟩ none none (some 0) (some 0)
        (some (DistArg.num 1)) "default" 5 = [] := by
  have h := (library_document_search_location_modes (fun _ _ _ _ => (0 : ℚ)) ⟨[]⟩
    none none "default" 5 0 0).2.1 1 (by norm_num)
  simpa using h

/-- Case-sensitive substring containment (the relation the claim about
the `q` filter asserts); spec-side definition for comparison. -/
def substrCS (needle hay : List Char) : Bool :=
  (List.range (hay.length + 1)).any (fun i => needle.isPrefixOf (hay.drop i))

/-- A library-document row with only a URL set, under tenant "default". -/
def rowWithUrl (u : String) : LibRow :=
  ⟨"document", none, some u, none, none, "default", none, none, none, none⟩

/-- C7 counterexample: with `q = "abc"` the search returns the row whose
URL is "ABC" — the stored text contains `q` only in a different letter
case (case-sensitively, "abc" is not a substring of "ABC"), yet the row
is returned, because SQLite `LIKE` folds ASCII case.  The claim's
"case-sensitive substring" characterisation is therefore false. -/
theorem library_document_search_q_case_insensitive_hit :
    library_document_search (fun _ _ _ _ => (0 : ℚ)) ⟨[rowWithUrl "ABC"]⟩ none
        (some "abc") none none none "default" 10 = [rowWithUrl "ABC"]
    ∧ substrCS "abc".data "ABC".data = false
    ∧ (rowWithUrl "ABC").url = some "ABC" := by
  refine ⟨by decide, by decide, rfl⟩

/-- C7 (amended): with a non-empty `q` and no location filter, the rows
returned by `library_document_search` are exactly the in-scope rows
(tenant, optional document_type) whose serialized `type_metadata` or
`url` matches the SQL pattern `%q%` under `likeMatch` — SQLite `LIKE`
semantics, which fold ASCII letter case — ordered by descending id and
truncated to `limit`. -/
theorem library_document_search_text_filter
    (dFn : ℚ → ℚ → ℚ → ℚ → ℚ) (st : LibState) (dt : Option String)
    (q : String) (hq : q ≠ "") (tenant : String) (limit : ℕ) :
    library_document_search dFn st dt (some q) none none none tenant limit
      = ((st.rows.filter (fun r =>
            r.tenant_id == tenantNorm tenant &&
            (match dt with
             | some s => if s = "" then true else r.document_type == s
             | none => true) &&
            (likeOpt ('%' :: (q.data ++ ['%'])) r.type_metadata ||
             likeOpt ('%' :: (q.data ++ ['%'])) r.url))).reverse).take limit := by
  have hfil : List.filter (searchSqlPred dt (some q) (tenantNorm tenant)) st.rows
      = List.filter (fun r =>
          r.tenant_id == tenantNorm tenant &&
          (match dt with
           | some s => if s = "" then true else r.document_type == s
           | none => true) &&
          (likeOpt ('%' :: (q.data ++ ['%'])) r.type_metadata ||
           likeOpt ('%' :: (q.data ++ ['%'])) r.url)) st.rows := by
    apply List.filter_congr
    intro r _
    simp [searchSqlPred, hq]
  simp only [library_document_search, locFilter]
  rw [hfil]

/-- Witness for C7 (amended) at a concrete query and state. -/
theorem library_document_search_text_filter_witness :
    library_document_search (fun _ _ _ _ => (0 : ℚ)) ⟨[rowWithUrl "ABC"]⟩ none
        (some "abc") none none none "default" 10
      = (((⟨[rowWithUrl "ABC"]⟩ : LibState).rows.filter (fun r =>
            r.tenant_id == tenantNorm "default" &&
            (likeOpt ('%' :: ("abc".data ++ ['%'])) r.type_metadata ||
             likeOpt ('%' :: ("abc".data ++ ['%'])) r.url))).reverse).take 10 := by
  have h := library_document_search_text_filter (fun _ _ _ _ => (0 : ℚ))
    ⟨[rowWithUrl "ABC"]⟩ none "abc" (by decide) "default" 10
  simpa using h

/-- If the rest of a pattern matches some suffix of the text, the
pattern headed by `%` matches the whole text. -/
theorem likeMatch_pct_of_suffix (ps : List Char) (s t : List Char)
    (hmatch : likeMatch ps t = true) (hsuf : t <:+ s) :
    likeMatch ('%' :: ps) s = true := by
  simp only [likeMatch, List.any_eq_true]
  exact ⟨t, (List.mem_tails _ _).mpr hsuf, hmatch⟩

theorem tenantNorm_default : tenantNorm "default" = "default" := by decide

/-- C10: the `q` argument of `library_document_search` lands unescaped
in an SQL `LIKE` pattern, so `%` and an underscore act as wildcards, not
literal characters.  With `q = "a%b"` every document whose URL is
"a" ++ mid ++ "b" is returned, whatever `mid` is; in particular the URL
"aXb", of which "a%b" is not a case-sensitive substring, is returned.
With `q` = "a", underscore, "b", a URL "a" ++ c ++ "b" is returned for
any single character c, while the URL "ab" (zero characters between) is
not. -/
theorem library_document_search_q_is_like_pattern :
    (∀ mid : String,
      library_document_search (fun _ _ _ _ => (0 : ℚ))
          ⟨[rowWithUrl ("a" ++ mid ++ "b")]⟩ none (some "a%b")
          none none none "default" 10 = [rowWithUrl ("a" ++ mid ++ "b")])
    ∧ (library_document_search (fun _ _ _ _ => (0 : ℚ)) ⟨[rowWithUrl "aXb"]⟩ none
          (some "a%b") none none none "default" 10 = [rowWithUrl "aXb"]
        ∧ substrCS "a%b".data "aXb".data = false)
    ∧ (∀ c : Char,
        library_document_search (fun _ _ _ _ => (0 : ℚ))
            ⟨[rowWithUrl ("a" ++ String.mk [c] ++ "b")]⟩ none (some "a_b")
            none none none "default" 10 = [rowWithUrl ("a" ++ String.mk [c] ++ "b")])
    ∧ library_document_search (fun _ _ _ _ => (0 : ℚ)) ⟨[rowWithUrl "ab"]⟩ none
        (some "a_b") none none none "default" 10 = [] := by
  refine ⟨?_, ⟨by decide, by decide⟩, ?_, by decide⟩
  · intro mid
    have h2 : likeMatch ('%' :: 'b' :: '%' :: []) (mid.data ++ ['b']) = true :=
      likeMatch_pct_of_suffix _ _ ['b'] (by decide) ⟨mid.data, rfl⟩
    have hlike : likeMatch ('%' :: 'a' :: '%' :: 'b' :: '%' :: [])
        ('a' :: (mid.data ++ ['b'])) = true := by
      apply likeMatch_pct_of_suffix _ _ _ ?_ (List.suffix_refl _)
      show (decide (asciiFold 'a' = asciiFold 'a') &&
        likeMatch ('%' :: 'b' :: '%' :: []) (mid.data ++ ['b'])) = true
      rw [h2]
      decide
    have hpred : searchSqlPred none (some "a%b") "default"
        (rowWithUrl ("a" ++ mid ++ "b")) = true := by
      simp [searchSqlPred, rowWithUrl, likeOpt, hlike]
    simp [library_document_search, locFilter, tenantNorm_default, hpred]
  · intro c
    have h2 : likeMatch ('_' :: 'b' :: '%' :: []) (c :: 'b' :: [])
        = likeMatch ('b' :: '%' :: []) ('b' :: []) := rfl
    have hlike : likeMatch ('%' :: 'a' :: '_' :: 'b' :: '%' :: [])
        ('a' :: c :: 'b' :: []) = true := by
      apply likeMatch_pct_of_suffix _ _ _ ?_ (List.suffix_refl _)
      show (decide (asciiFold 'a' = asciiFold 'a') &&
        likeMatch ('_' :: 'b' :: '%' :: []) (c :: 'b' :: [])) = true
      rw [h2]
      decide
    have hpred : searchSqlPred none (some "a_b") "default"
        (rowWithUrl ("a" ++ String.mk [c] ++ "b")) = true := by
      simp [searchSqlPred, rowWithUrl, likeOpt, hlike]
    simp [library_document_search, locFilter, tenantNorm_default, hpred]

/-- Witness for C10 at concrete `mid` and wildcard character. -/
theorem library_document_search_q_is_like_pattern_witness :
    library_document_search (fun _ _ _ _ => (0 : ℚ)) ⟨[rowWithUrl "aXYZb"]⟩ none
        (some "a%b") none none none "default" 10 = [rowWithUrl "aXYZb"]
    ∧ library_document_search (fun _ _ _ _ => (0 : ℚ)) ⟨[rowWithUrl "aqb"]⟩ none
        (some "a_b") none none none "default" 10 = [rowWithUrl "aqb"] := by
  have h := library_document_search_q_is_like_pattern
  exact ⟨h.1 "XYZ", h.2.2.1 'q'⟩

/-- A decoded Python JSON value (`json.loads` result).  Python's `None`
(the decode of JSON `null`, and also the value of an absent dict key or
a NULL column) is `Json.null`. -/
inductive Json where
  | null
  | boolean (b : Bool)
  | num (q : ℚ)
  | str (s : String)
  | arr (xs : List Json)
  | obj (fields : List (String × Json))
  deriving Repr, Inhabited

/-- Python `x is None`. -/
def Json.isNull : Json → Bool
  | .null => true
  | _ => false

/-- Python truthiness of a decoded JSON value. -/
def pyTruthy : Json → Bool
  | .null => false
  | .boolean b => b
  | .num q => q ≠ 0
  | .str s => s ≠ ""
  | .arr xs => !xs.isEmpty
  | .obj fs => !fs.isEmpty

/-- `payload.get(key)` — `AttributeError` (modelled as `.error`) when the
value is not a dict; an absent key yields Python `None`.  A dict decoded
from JSON keeps the last of duplicate keys, hence the reverse lookup. -/
def jsonObjGet : Json → String → Except String Json
  | Json.obj fs, k => .ok ((fs.reverse.lookup k).getD Json.null)
  | _, _ => .error "AttributeError: object has no attribute get"

/-- A row of the `ingestion_jobs` table.  The columns the code never
writes on insert (`attempt_count` 0, NULL timestamps/error) take the
schema defaults; the schema file is not part of the sources, so the
defaults are modelled from the spec (§3: attempt_count is a monotonic
counter incremented on every start attempt; status lifecycle starts at
pending). -/
structure JobRow where
  job_type : String
  source : String
  status : String
  payload_json : Option String
  attempt_count : ℕ
  started_at : Option ℕ
  finished_at : Option ℕ
  error_text : Option String
  tenant_id : String
  updated_at : Option ℕ
  deriving Repr, DecidableEq

/-- A row of the `nasa_file_registry` table. -/
structure NasaFileRow where
  file_type : String
  source_url : Option String
  local_path : String
  checksum : Option String
  valid_from : Option String
  valid_to : Option String
  format_version : Option String
  tenant_id : String
  updated_at : Option ℕ
  deriving Repr, DecidableEq

/-- A row of the `ephemeris_samples` table.  `source_file_id` stores the
dynamically-typed Python value passed to the insert (an int from the
registry, a payload-supplied value, or None). -/
structure EphRow where
  body_id : String
  epoch_utc : String
  position_x : ℚ
  position_y : ℚ
  position_z : ℚ
  velocity_x : Option ℚ
  velocity_y : Option ℚ
  velocity_z : Option ℚ
  frame_id : Option String
  source_file_id : Json
  tenant_id : String
  deriving Repr

/-- The continuum database tables the ingestion path touches; each list
is in insertion order with ids `index + 1`. -/
structure Db where
  jobs : List JobRow
  nasaFiles : List NasaFileRow
  ephemeris : List EphRow
  deriving Repr

/-- `ContinuumDb.ingestion_job_get`:
`SELECT * WHERE id = ? AND tenant_id = ?`. -/
def ingestion_job_get (db : Db) (job_id : ℕ) (tenant_id : String) : Option JobRow :=
  match db.jobs.get? (job_id - 1) with
  | some r => if 1 ≤ job_id ∧ r.tenant_id = tenantNorm tenant_id then some r else none
  | none => none

/-- The row the conditional UPDATE of `ingestion_job_start` writes:
status running, `started_at = COALESCE(started_at, now)`,
`attempt_count = attempt_count + 1`, fresh `updated_at`. -/
def jobStartedRow (r : JobRow) (now : ℕ) : JobRow :=
  { r with
    status := "running", started_at := some (r.started_at.getD now),
    attempt_count := r.attempt_count + 1, updated_at := some now }

/-- `ContinuumDb.ingestion_job_start`: a single conditional UPDATE
guarded by `status IN ('pending','failed')` on the row matched by id and
tenant; returns `rowcount > 0`. -/
def ingestion_job_start (db : Db) (job_id : ℕ) (tenant_id : String) (now : ℕ) :
    Db × Bool :=
  match ingestion_job_get db job_id tenant_id with
  | some r =>
    if r.status = "pending" ∨ r.status = "failed" then
      ({ db with jobs := db.jobs.set (job_id - 1) (jobStartedRow r now) }, true)
    else (db, false)
  | none => (db, false)

/-- `ContinuumDb.ingestion_job_complete`: unconditional UPDATE of the
row matched by id and tenant. -/
def ingestion_job_complete (db : Db) (job_id : ℕ) (tenant_id : String) (now : ℕ) : Db :=
  match ingestion_job_get db job_id tenant_id with
  | some r =>
    let r2 : JobRow :=
      { r with
        status := "completed", finished_at := some now,
        error_text := none, updated_at := some now }
    { db with jobs := db.jobs.set (job_id - 1) r2 }
  | none => db

/-- `ContinuumDb.ingestion_job_fail`: unconditional UPDATE of the row
matched by id and tenant. -/
def ingestion_job_fail (db : Db) (job_id : ℕ) (error_text : String)
    (tenant_id : String) (now : ℕ) : Db :=
  match ingestion_job_get db job_id tenant_id with
  | some r =>
    let r2 : JobRow :=
      { r with
        status := "failed", finished_at := some now,
        error_text := some error_text, updated_at := some now }
    { db with jobs := db.jobs.set (job_id - 1) r2 }
  | none => db

/-- `ContinuumDb.nasa_file_list`: tenant filter, optional truthy
`file_type` filter, `ORDER BY id DESC LIMIT ?`; rows are returned
together with their ids. -/
def nasa_file_list (db : Db) (file_type : Option String) (tenant_id : String)
    (limit : ℕ) : List (ℕ × NasaFileRow) :=
  let tenant := tenantNorm tenant_id
  let withIds := ((List.range db.nasaFiles.length).zip db.nasaFiles).map
    (fun p => (p.1 + 1, p.2))
  let matching := withIds.filter (fun p =>
    p.2.tenant_id == tenant &&
    (match file_type with
     | some ft => if ft = "" then true else p.2.file_type == ft
     | none => true))
  matching.reverse.take limit

/-- `ContinuumDb.ephemeris_sample_insert` restricted to the fields the
ingestion runner passes. -/
def ephemeris_sample_insert (db : Db) (body_id epoch_utc : String)
    (px py pz : ℚ) (vx vy vz : Option ℚ) (frame_id : Option String)
    (source_file_id : Json) (tenant_id : String) : Db :=
  { db with ephemeris := db.ephemeris ++
      [{ body_id := body_id, epoch_utc := epoch_utc, position_x := px,
         position_y := py, position_z := pz, velocity_x := vx, velocity_y := vy,
         velocity_z := vz, frame_id := frame_id, source_file_id := source_file_id,
         tenant_id := tenantNorm tenant_id }] }

/-- Unfolding a successful tenant-scoped job lookup. -/
theorem ingestion_job_get_eq_some (db : Db) (job_id : ℕ) (t : String) (r : JobRow) :
    ingestion_job_get db job_id t = some r ↔
      db.jobs.get? (job_id - 1) = some r ∧ 1 ≤ job_id ∧
        r.tenant_id = tenantNorm t := by
  unfold ingestion_job_get
  cases hj : db.jobs.get? (job_id - 1) with
  | none => simp
  | some r0 =>
    simp only [Option.some.injEq]
    constructor
    · intro h
      split at h
      · next hcond =>
        obtain rfl := Option.some.inj h
        exact ⟨rfl, hcond⟩
      · exact Option.noConfusion h
    · rintro ⟨rfl, h2, h3⟩
      exact if_pos ⟨h2, h3⟩

/-- C3: `ingestion_job_start` returns true iff the job exists under the
tenant with status pending or failed; on success the row becomes
running with attempt_count incremented by exactly one, `started_at`
preserved when already set (stamped with now only on the first
successful start) and other job rows untouched; on failure (status
running/completed/other, or no such job under the tenant) the database
is returned entirely unchanged. -/
theorem ingestion_job_start_guard (db : Db) (job_id : ℕ) (t : String) (now : ℕ) :
    ((ingestion_job_start db job_id t now).2 = true ↔
      ∃ r, ingestion_job_get db job_id t = some r ∧
        (r.status = "pending" ∨ r.status = "failed"))
    ∧ ((ingestion_job_start db job_id t now).2 = false →
        (ingestion_job_start db job_id t now).1 = db)
    ∧ (∀ r, ingestion_job_get db job_id t = some r →
        (r.status = "pending" ∨ r.status = "failed") →
        (ingestion_job_start db job_id t now).2 = true
        ∧ ingestion_job_get (ingestion_job_start db job_id t now).1 job_id t
            = some (jobStartedRow r now)
        ∧ (jobStartedRow r now).status = "running"
        ∧ (jobStartedRow r now).attempt_count = r.attempt_count + 1
        ∧ (∀ t0, r.started_at = some t0 → (jobStartedRow r now).started_at = some t0)
        ∧ (r.started_at = none → (jobStartedRow r now).started_at = some now)
        ∧ (∀ j2, j2 ≠ job_id →
            ingestion_job_get (ingestion_job_start db job_id t now).1 j2 t
              = ingestion_job_get db j2 t)) := by
  refine ⟨?_, ?_, ?_⟩
  · cases hg : ingestion_job_get db job_id t with
    | none => simp [ingestion_job_start, hg]
    | some r =>
      by_cases hs : r.status = "pending" ∨ r.status = "failed"
      · simp [ingestion_job_start, hg, hs]
      · simp [ingestion_job_start, hg, hs]
  · cases hg : ingestion_job_get db job_id t with
    | none => simp [ingestion_job_start, hg]
    | some r =>
      by_cases hs : r.status = "pending" ∨ r.status = "failed"
      · simp [ingestion_job_start, hg, hs]
      · simp [ingestion_job_start, hg, hs]
  · intro r hg hs
    have hparts := (ingestion_job_get_eq_some db job_id t r).mp hg
    have hlen : job_id - 1 < db.jobs.length := by
      have := hparts.1
      rw [List.get?_eq_getElem?] at this
      exact (List.getElem?_eq_some.mp this).1
    refine ⟨by simp [ingestion_job_start, hg, hs], ?_, rfl, rfl, ?_, ?_, ?_⟩
    · have hset : (db.jobs.set (job_id - 1) (jobStartedRow r now)).get? (job_id - 1)
          = some (jobStartedRow r now) := by
        rw [List.get?_eq_getElem?]
        exact List.getElem?_set_eq_of_lt _ hlen
      rw [show (ingestion_job_start db job_id t now).1
          = { db with jobs := db.jobs.set (job_id - 1) (jobStartedRow r now) } by
        simp [ingestion_job_start, hg, hs]]
      apply (ingestion_job_get_eq_some _ _ _ _).mpr
      refine ⟨hset, hparts.2.1, ?_⟩
      show r.tenant_id = tenantNorm t
      exact hparts.2.2
    · intro t0 h0
      simp [jobStartedRow, h0]
    · intro h0
      simp [jobStartedRow, h0]
    · intro j2 hne
      rw [show (ingestion_job_start db job_id t now).1
          = { db with jobs := db.jobs.set (job_id - 1) (jobStartedRow r now) } by
        simp [ingestion_job_start, hg, hs]]
      by_cases hz : 1 ≤ j2
      · have hii : job_id - 1 ≠ j2 - 1 := by omega
        unfold ingestion_job_get
        rw [show ({ db with jobs := db.jobs.set (job_id - 1) (jobStartedRow r now) } : Db).jobs
            = db.jobs.set (job_id - 1) (jobStartedRow r now) from rfl,
          List.get?_eq_getElem?, List.getElem?_set_ne hii, ← List.get?_eq_getElem?]
      · unfold ingestion_job_get
        cases h1 : (db.jobs.set (job_id - 1) (jobStartedRow r now)).get? (j2 - 1) <;>
          cases h2 : db.jobs.get? (j2 - 1) <;> simp [hz]

/-- Witness for C3: a pending job starts (attempt 0 goes to 1), a
completed one does not and leaves the state unchanged. -/
theorem ingestion_job_start_guard_witness :
    (ingestion_job_start
        ⟨[⟨"horizons", "/x", "pending", none, 0, none, none, none, "default", none⟩], [], []⟩
        1 "default" 5).2 = true
    ∧ (ingestion_job_start
        ⟨[⟨"horizons", "/x", "completed", none, 2, some 1, some 2, none, "default", none⟩], [], []⟩
        1 "default" 5).2 = false := by
  constructor
  · exact ((ingestion_job_start_guard
      ⟨[⟨"horizons", "/x", "pending", none, 0, none, none, none, "default", none⟩], [], []⟩
      1 "default" 5).2.2
      ⟨"horizons", "/x", "pending", none, 0, none, none, none, "default", none⟩
      (by decide) (Or.inl rfl)).1
  · decide

/-- JSON whitespace (RFC 8259, as accepted by Python `json.loads`). -/
def jsonWs (c : Char) : Bool :=
  c = ' ' || c = '\t' || c = '\n' || c = '\r'

def skipJsonWs (cs : List Char) : List Char :=
  cs.dropWhile jsonWs

def isHexDigit (c : Char) : Bool :=
  c.isDigit || ('a' ≤ c && c ≤ 'f') || ('A' ≤ c && c ≤ 'F')

def hexVal (c : Char) : ℕ :=
  if c.isDigit then c.toNat - 48
  else if 'a' ≤ c && c ≤ 'f' then c.toNat - 87
  else c.toNat - 55

/-- The body of a JSON string after the opening quote: returns the
decoded characters and the remainder after the closing quote.  Escapes
are decoded; unescaped control characters are rejected (strict mode);
`\uXXXX` decodes a single code unit (surrogate pairing is not modelled —
no claim exercises it). -/
def jsonStringBody : ℕ → List Char → Option (List Char × List Char)
  | 0, _ => none
  | _ + 1, [] => none
  | fuel + 1, c :: t =>
    if c = '"' then some ([], t)
    else if c = '\\' then
      match t with
      | [] => none
      | e :: t2 =>
        let dec : Option (Char × List Char) :=
          if e = '"' then some ('"', t2)
          else if e = '\\' then some ('\\', t2)
          else if e = '/' then some ('/', t2)
          else if e = 'b' then some ('\x08', t2)
          else if e = 'f' then some ('\x0c', t2)
          else if e = 'n' then some ('\n', t2)
          else if e = 'r' then some ('\r', t2)
          else if e = 't' then some ('\t', t2)
          else if e = 'u' then
            match t2 with
            | h1 :: h2 :: h3 :: h4 :: t3 =>
              if isHexDigit h1 && isHexDigit h2 && isHexDigit h3 && isHexDigit h4 then
                some (Char.ofNat
                  (((hexVal h1 * 16 + hexVal h2) * 16 + hexVal h3) * 16 + hexVal h4), t3)
              else none
            | _ => none
          else none
        match dec with
        | some (d, rest) =>
          match jsonStringBody fuel rest with
          | some (s, rest2) => some (d :: s, rest2)
          | none => none
        | none => none
    else if c.toNat < 32 then none
    else
      match jsonStringBody fuel t with
      | some (s, rest2) => some (c :: s, rest2)
      | none => none

/-- A JSON number (`-? (0 | [1-9][0-9]*) frac? exp?`), evaluated
exactly over ℚ.  (Magnitudes that overflow a Python float to infinity
are not modelled; no claim exercises them.) -/
def jsonNumber (cs : List Char) : Option (ℚ × List Char) :=
  let (neg, cs1) :=
    match cs with
    | '-' :: t => (true, t)
    | t => (false, t)
  let ip := cs1.takeWhile Char.isDigit
  let r1 := cs1.dropWhile Char.isDigit
  if ip = [] then none
  else if 1 < ip.length ∧ ip.head? = some '0' then none
  else
    let (fp, r2) :=
      match r1 with
      | '.' :: t => (t.takeWhile Char.isDigit, t.dropWhile Char.isDigit)
      | t => ([], t)
    if r1.head? = some '.' ∧ fp = [] then none
    else
      let mant : ℚ := (natToQ (digitsToNat (ip ++ fp)) / qpow10 fp.length) *
        (if neg then -1 else 1)
      match r2 with
      | e :: t =>
        if e = 'e' ∨ e = 'E' then
          let (negExp, t1) :=
            match t with
            | '-' :: u => (true, u)
            | '+' :: u => (false, u)
            | u => (false, u)
          let ed := t1.takeWhile Char.isDigit
          let t2 := t1.dropWhile Char.isDigit
          if ed = [] then none
          else if negExp then some (mant / qpow10 (digitsToNat ed), t2)
          else some (mant * qpow10 (digitsToNat ed), t2)
        else some (mant, r2)
      | [] => some (mant, [])

mutual

/-- One JSON value at the head of the input (leading whitespace already
consumed); returns the value and the unconsumed remainder. -/
def jsonValue : ℕ → List Char → Option (Json × List Char)
  | 0, _ => none
  | _ + 1, [] => none
  | fuel + 1, c :: t =>
    if c = 'n' then
      if t.take 3 = ['u', 'l', 'l'] then some (Json.null, t.drop 3) else none
    else if c = 't' then
      if t.take 3 = ['r', 'u', 'e'] then some (Json.boolean true, t.drop 3) else none
    else if c = 'f' then
      if t.take 4 = ['a', 'l', 's', 'e'] then some (Json.boolean false, t.drop 4)
      else none
    else if c = '"' then
      match jsonStringBody (t.length + 1) t with
      | some (s, rest) => some (Json.str (String.mk s), rest)
      | none => none
    else if c = '[' then
      match skipJsonWs t with
      | ']' :: rest => some (Json.arr [], rest)
      | t2 => jsonElements fuel t2 []
    else if c = '{' then
      match skipJsonWs t with
      | '}' :: rest => some (Json.obj [], rest)
      | t2 => jsonMembers fuel t2 []
    else
      match jsonNumber (c :: t) with
      | some (q, rest) => some (Json.num q, rest)
      | none => none

/-- Array elements after the opening bracket (at least one element). -/
def jsonElements : ℕ → List Char → List Json → Option (Json × List Char)
  | 0, _, _ => none
  | fuel + 1, cs, acc =>
    match jsonValue fuel cs with
    | none => none
    | some (v, rest) =>
      match skipJsonWs rest with
      | ',' :: rest2 => jsonElements fuel (skipJsonWs rest2) (v :: acc)
      | ']' :: rest2 => some (Json.arr (v :: acc).reverse, rest2)
      | _ => none

/-- Object members after the opening brace (at least one member). -/
def jsonMembers : ℕ → List Char → List (String × Json) → Option (Json × List Char)
  | 0, _, _ => none
  | fuel + 1, cs, acc =>
    match cs with
    | '"' :: t =>
      match jsonStringBody (t.length + 1) t with
      | none => none
      | some (k, rest) =>
        match skipJsonWs rest with
        | ':' :: rest2 =>
          match jsonValue fuel (skipJsonWs rest2) with
          | none => none
          | some (v, rest3) =>
            match skipJsonWs rest3 with
            | ',' :: rest4 => jsonMembers fuel (skipJsonWs rest4) ((String.mk k, v) :: acc)
            | '}' :: rest4 => some (Json.obj ((String.mk k, v) :: acc).reverse, rest4)
            | _ => none
        | _ => none
    | _ => none

end

/-- `json.loads(s)`: optional surrounding whitespace around exactly one
JSON value (`JSONDecodeError` modelled as `none`). -/
def pyJsonLoads (s : String) : Option Json :=
  match jsonValue (s.length + 1) (skipJsonWs s.data) with
  | some (v, rest) => if skipJsonWs rest = [] then some v else none
  | none => none

/-- The payload decode of `run_ingestion_job` lines 172–177: a NULL
column stays Python `None`; a string column is decoded with empty or
invalid JSON tolerated as an empty dict; note a valid JSON value that is
not an object (e.g. a list or `null`) is kept as decoded. -/
def decodePayload (col : Option String) : Json :=
  match col with
  | none => Json.null
  | some s => if s = "" then Json.obj [] else (pyJsonLoads s).getD (Json.obj [])

/-- `(payload.get("source") or job.get("source") or "").strip()`:
raises `AttributeError` when the payload is not a dict, or when the
truthy chain yields a non-string value. -/
def resolveSource (payload : Json) (jobSource : String) : Except String String :=
  match jsonObjGet payload "source" with
  | .error e => .error e
  | .ok v =>
    match (if pyTruthy v then v else Json.str jobSource) with
    | Json.str s => .ok (pyStrip s)
    | _ => .error "AttributeError: object has no attribute strip"

/-- `(payload.get("body_id") or body_id).strip() or "earth"`. -/
def resolveBodyId (payload : Json) (dflt : String) : Except String String :=
  match jsonObjGet payload "body_id" with
  | .error e => .error e
  | .ok v =>
    match (if pyTruthy v then v else Json.str dflt) with
    | Json.str s => .ok (if pyStrip s = "" then "earth" else pyStrip s)
    | _ => .error "AttributeError: object has no attribute strip"

/-- Python `\w` (ASCII range; the Horizons inputs are ASCII). -/
def isWordChar (c : Char) : Bool :=
  c.isAlphanum || c = '_'

def soeTok : List Char := ['$', '$', 'S', 'O', 'E']

def eoeTok : List Char := ['$', '$', 'E', 'O', 'E']

/-- Case-insensitive prefix test (re.IGNORECASE on the block regex). -/
def ciStartsWith : List Char → List Char → Bool
  | [], _ => true
  | _ :: _, [] => false
  | n :: ns, h :: hs => (asciiFold n = asciiFold h) && ciStartsWith ns hs

/-- Does `\s+\$\$EOE` match at this position?  (`\s+` greedy; since
`$` is not whitespace, greedy and backtracking agree: the maximal run
must be followed by the literal.) -/
def eoeStopAt (cs : List Char) : Bool :=
  (cs.takeWhile pyIsSpace) ≠ [] && ciStartsWith eoeTok (cs.dropWhile pyIsSpace)

/-- The lazy `(.*?)` of the block regex: the shortest content prefix
after which `\s+\$\$EOE` matches; returns the captured content and the
remainder after `$$EOE`.  (Accumulator form so evaluation is
tail-recursive.) -/
def scanContentAux : ℕ → List Char → List Char → Option (List Char × List Char)
  | 0, _, _ => none
  | fuel + 1, acc, cs =>
    if eoeStopAt cs then some (acc.reverse, (cs.dropWhile pyIsSpace).drop 5)
    else
      match cs with
      | [] => none
      | c :: t => scanContentAux fuel (c :: acc) t

def scanContent (fuel : ℕ) (cs : List Char) : Option (List Char × List Char) :=
  scanContentAux fuel [] cs

/-- The `\s+` after `$$SOE`, greedy with backtracking: try the maximal
whitespace run first, then shorter ones. -/
def soeBodyAux : ℕ → List Char → Option (List Char × List Char)
  | 0, _ => none
  | k + 1, cs =>
    match scanContent (cs.length + 1) (cs.drop (k + 1)) with
    | some r => some r
    | none => soeBodyAux k cs

/-- Matching `\s+(.*?)\s+\$\$EOE` directly after a `$$SOE` token. -/
def soeBody (cs : List Char) : Option (List Char × List Char) :=
  let m := (cs.takeWhile pyIsSpace).length
  if m = 0 then none else soeBodyAux m cs

/-- `re.findall(r"\$\$SOE\s+(.*?)\s+\$\$EOE", text, DOTALL | IGNORECASE)`:
leftmost non-overlapping matches, scanning resumes after each match. -/
def findBlocksAux : ℕ → List Char → List (List Char)
  | 0, _ => []
  | fuel + 1, cs =>
    match cs with
    | [] => []
    | _ :: t =>
      if ciStartsWith soeTok cs then
        match soeBody (cs.drop 5) with
        | some (content, rest) => content :: findBlocksAux fuel rest
        | none => findBlocksAux fuel t
      else findBlocksAux fuel t

/-- Matching `A\.D\.\s+(\d{4})-(\w{3})-(\d{1,2})\s+(\d{2}):(\d{2}):(\d{2})`
at the current position; shared core of the outer epoch pattern and the
inner re-parse.  `\d{1,2}` is greedy with a following `\s+`, so the
digit run must have length 1 or 2 and be followed by whitespace.
Returns (year, month token, day, hour, minute, second, remainder). -/
def matchADCore (cs : List Char) : Option (ℕ × String × ℕ × ℕ × ℕ × ℕ × List Char) :=
  match cs with
  | 'A' :: '.' :: 'D' :: '.' :: rest =>
    if rest.takeWhile pyIsSpace = [] then none
    else
      match rest.dropWhile pyIsSpace with
      | y1 :: y2 :: y3 :: y4 :: '-' :: r2 =>
        if [y1, y2, y3, y4].all Char.isDigit then
          match r2 with
          | m1 :: m2 :: m3 :: '-' :: r3 =>
            if isWordChar m1 && isWordChar m2 && isWordChar m3 then
              let ds := r3.takeWhile Char.isDigit
              let r4 := r3.dropWhile Char.isDigit
              if (ds.length = 1 ∨ ds.length = 2) ∧ r4.takeWhile pyIsSpace ≠ [] then
                match r4.dropWhile pyIsSpace with
                | h1 :: h2 :: ':' :: n1 :: n2 :: ':' :: s1 :: s2 :: r6 =>
                  if [h1, h2, n1, n2, s1, s2].all Char.isDigit then
                    some (digitsToNat [y1, y2, y3, y4], String.mk [m1, m2, m3],
                      digitsToNat ds, digitsToNat [h1, h2], digitsToNat [n1, n2],
                      digitsToNat [s1, s2], r6)
                  else none
                | _ => none
              else none
            else none
          | _ => none
        else none
      | _ => none
  | _ => none

/-- `re.search` of the inner epoch pattern: leftmost match. -/
def adSearch : ℕ → List Char → Option (ℕ × String × ℕ × ℕ × ℕ × ℕ)
  | 0, _ => none
  | fuel + 1, cs =>
    match matchADCore cs with
    | some (y, mon, d, hh, mm, ss, _) => some (y, mon, d, hh, mm, ss)
    | none =>
      match cs with
      | [] => none
      | _ :: t => adSearch fuel t

/-- The outer epoch pattern
`(\d+\.?\d*)\s*=\s*(A\.D\.\s+\d{4}-\w{3}-\d{1,2}\s+\d{2}:\d{2}:\d{2}[^\s]*)`
matched at the current position; returns group 2. -/
def matchEpochAt (cs : List Char) : Option (List Char) :=
  if cs.takeWhile Char.isDigit = [] then none
  else
    let r1 := cs.dropWhile Char.isDigit
    let r2 :=
      match r1 with
      | '.' :: t => t.dropWhile Char.isDigit
      | t => t
    match r2.dropWhile pyIsSpace with
    | '=' :: r4 =>
      let r5 := r4.dropWhile pyIsSpace
      match matchADCore r5 with
      | some (_, _, _, _, _, _, rest) =>
        let ext := rest.takeWhile (fun c => !pyIsSpace c)
        some (r5.take (r5.length - rest.length) ++ ext)
      | none => none
    | _ => none

/-- `re.search` of the outer epoch pattern over a block. -/
def epochSearch : ℕ → List Char → Option (List Char)
  | 0, _ => none
  | fuel + 1, cs =>
    match matchEpochAt cs with
    | some g2 => some g2
    | none =>
      match cs with
      | [] => none
      | _ :: t => epochSearch fuel t

/-- The character class `[-\d.Ee+]`. -/
def numClassChar (c : Char) : Bool :=
  c = '-' || c = '+' || c = '.' || c = 'E' || c = 'e' || c.isDigit

/-- One labelled float of the vector patterns: `<label>\s*=\s*` then a
nonempty `[-\d.Ee+]+` group; returns the group and the remainder. -/
def matchLabeledNum (label : List Char) (cs : List Char) : Option (List Char × List Char) :=
  if label.isPrefixOf cs then
    match (cs.drop label.length).dropWhile pyIsSpace with
    | '=' :: r1 =>
      let r2 := r1.dropWhile pyIsSpace
      let g := r2.takeWhile numClassChar
      if g = [] then none else some (g, r2.dropWhile numClassChar)
    | _ => none
  else none

/-- `X\s*=\s*(g)\s+Y\s*=\s*(g)\s+Z\s*=\s*(g)` (or the VX/VY/VZ variant)
matched at the current position. -/
def matchTripleAt (l1 l2 l3 : List Char) (cs : List Char) :
    Option (List Char × List Char × List Char) :=
  match matchLabeledNum l1 cs with
  | none => none
  | some (g1, r1) =>
    if r1.takeWhile pyIsSpace = [] then none
    else
      match matchLabeledNum l2 (r1.dropWhile pyIsSpace) with
      | none => none
      | some (g2, r2) =>
        if r2.takeWhile pyIsSpace = [] then none
        else
          match matchLabeledNum l3 (r2.dropWhile pyIsSpace) with
          | none => none
          | some (g3, _) => some (g1, g2, g3)

/-- `re.search` of a vector pattern over a block. -/
def tripleSearch (l1 l2 l3 : List Char) : ℕ → List Char →
    Option (List Char × List Char × List Char)
  | 0, _ => none
  | fuel + 1, cs =>
    match matchTripleAt l1 l2 l3 cs with
    | some r => some r
    | none =>
      match cs with
      | [] => none
      | _ :: t => tripleSearch l1 l2 l3 fuel t

def monthTable : List (String × ℕ) :=
  [("Jan", 1), ("Feb", 2), ("Mar", 3), ("Apr", 4), ("May", 5), ("Jun", 6),
   ("Jul", 7), ("Aug", 8), ("Sep", 9), ("Oct", 10), ("Nov", 11), ("Dec", 12)]

/-- `months.get(mon_str, 1)` — an unknown token defaults to January. -/
def monthsGet (tok : String) : ℕ :=
  (monthTable.lookup tok).getD 1

def isLeapYear (y : ℕ) : Bool :=
  (y % 4 = 0 && y % 100 ≠ 0) || y % 400 = 0

def daysInMonth (y m : ℕ) : ℕ :=
  if m = 2 then (if isLeapYear y then 29 else 28)
  else if m = 4 ∨ m = 6 ∨ m = 9 ∨ m = 11 then 30 else 31

/-- The argument checks of `datetime(...)` (a failure raises
`ValueError`). -/
def dtValid (y mon d hh mm ss : ℕ) : Bool :=
  1 ≤ y && y ≤ 9999 && 1 ≤ mon && mon ≤ 12 && 1 ≤ d && d ≤ daysInMonth y mon &&
    hh ≤ 23 && mm ≤ 59 && ss ≤ 59

def pad2 (n : ℕ) : String :=
  if n < 10 then "0" ++ toString n else toString n

/-- Four-digit zero padding for `%Y` (all parsed years have four
digits; sub-1000 values only arise from leading-zero input). -/
def pad4 (n : ℕ) : String :=
  if n < 10 then "000" ++ toString n
  else if n < 100 then "00" ++ toString n
  else if n < 1000 then "0" ++ toString n
  else toString n

/-- `dt.strftime("%Y-%m-%dT%H:%M:%S")`. -/
def fmtDt (y mon d hh mm ss : ℕ) : String :=
  pad4 y ++ "-" ++ pad2 mon ++ "-" ++ pad2 d ++ "T" ++ pad2 hh ++ ":" ++
    pad2 mm ++ ":" ++ pad2 ss

/-- Lines 54–63 of `nasa_ingestion.py`: re-parse the epoch string; on an
inner-regex miss keep the raw string; otherwise map the month token
(default January), build the datetime (`none` models `ValueError`) and
re-serialize at seconds precision. -/
def epochNormalize (epochStr : String) : Option String :=
  match adSearch (epochStr.data.length + 1) epochStr.data with
  | none => some epochStr
  | some (y, tok, d, hh, mm, ss) =>
    let mon := monthsGet tok
    if dtValid y mon d hh mm ss then some (fmtDt y mon d hh mm ss) else none

/-- One parsed Horizons state-vector sample. -/
structure HSample where
  body_id : String
  epoch_utc : String
  position_x : ℚ
  position_y : ℚ
  position_z : ℚ
  velocity_x : ℚ
  velocity_y : ℚ
  velocity_z : ℚ
  deriving Repr, DecidableEq

/-- Outcome of one `$$SOE...$$EOE` block: an exception (`raised`), a
silent skip (some of the three patterns missing), or a sample. -/
inductive BlockResult where
  | raised
  | skipped
  | sample (s : HSample)
  deriving Repr, DecidableEq

/-- The per-block body of `_parse_horizons_vectors`. -/
def blockToSample (bodyId : String) (block : List Char) : BlockResult :=
  match epochSearch (block.length + 1) block,
    tripleSearch ['X'] ['Y'] ['Z'] (block.length + 1) block,
    tripleSearch ['V', 'X'] ['V', 'Y'] ['V', 'Z'] (block.length + 1) block with
  | some g2, some (xs, ys, zs), some (vxs, vys, vzs) =>
    match epochNormalize (String.mk (pyStripList g2)) with
    | none => .raised
    | some ep =>
      match pyFloat (String.mk xs), pyFloat (String.mk ys), pyFloat (String.mk zs),
        pyFloat (String.mk vxs), pyFloat (String.mk vys), pyFloat (String.mk vzs) with
      | some x, some y, some z, some vx, some vy, some vz =>
        .sample ⟨bodyId, ep, x, y, z, vx, vy, vz⟩
      | _, _, _, _, _, _ => .raised
  | _, _, _ => .skipped

/-- `_parse_horizons_vectors(path, body_id)` over the file text; `none`
models an exception escaping the parser. -/
def parse_horizons_vectors (text : String) (body_id : String) : Option (List HSample) :=
  (findBlocksAux (text.data.length + 1) text.data).foldl
    (fun acc block =>
      match acc with
      | none => none
      | some l =>
        match blockToSample body_id block with
        | .raised => none
        | .skipped => some l
        | .sample s => some (l ++ [s]))
    (some [])

/-- The two-block Horizons sample fixture `HORIZONS_SAMPLE` from
`src/tests/test_nasa_ingestion.py` (written to disk verbatim by the
test). -/
def horizonsFixture : String :=
  "\n$$SOE\n 2451545.00000000 = A.D. 2000-Jan-01 12:00:00.0000 TDB\n  X = -2.648865568995978E-01  Y =  9.437477927642869E-01  Z =  3.637431804599647E-04\n  VX= -1.613823890234401E-02  VY= -4.602245245109238E-03  VZ=  6.774557937097239E-07\n$$EOE\n$$SOE\n 2451546.00000000 = A.D. 2000-Jan-02 12:00:00.0000 TDB\n  X = -2.650381360283664E-01  Y =  9.436696506789992E-01  Z =  3.871027393796566E-04\n  VX= -1.613418903592888E-02  VY= -4.603589290724059E-03  VZ=  6.513800428141696E-07\n$$EOE\n"

set_option maxRecDepth 200000 in
/-- C8: parsing the two-block fixture yields exactly two records, in
source-file block order (their epochs are the first and second block's);
the first record's `epoch_utc` is "2000-01-01T12:00:00" (month mapped,
fractional seconds truncated, no timezone suffix) and its `position_x`
is the exact decimal of the source text, within 1e-6 of -0.264886557. -/
theorem parse_horizons_fixture_two_blocks :
    (parse_horizons_vectors horizonsFixture "earth").map
        (fun l => l.map (fun s => s.epoch_utc))
      = some ["2000-01-01T12:00:00", "2000-01-02T12:00:00"]
    ∧ ((parse_horizons_vectors horizonsFixture "earth").bind List.head?).map
        (fun s => s.position_x) = some (-(2648865568995978 : ℚ) / 10000000000000000)
    ∧ |(-(2648865568995978 : ℚ) / 10000000000000000) - (-(264886557 : ℚ) / 1000000000)|
        < 1 / 1000000 := by
  refine ⟨by decide, by decide, ?_⟩
  rw [show |(-(2648865568995978 : ℚ) / 10000000000000000) - (-(264886557 : ℚ) / 1000000000)|
      = |(502011 : ℚ) / 5000000000000000| by norm_num]
  rw [abs_of_pos (by norm_num)]
  norm_num

/-- C9: a block whose epoch line matches the expected shape but whose
month token is unknown is neither skipped nor an error: the month lookup
defaults to 1 and the block still yields a sample whose normalized epoch
uses January, provided the block's remaining fields are well-formed (the
position/velocity patterns match, their floats parse, and the
day/time is valid for January — an out-of-range day or time raises in
`datetime` regardless of the month token). -/
theorem horizons_unknown_month_defaults_to_january
    (block : List Char) (bodyId : String) (g2 : List Char)
    (y d hh mm ss : ℕ) (tok : String)
    (xs ys zs vxs vys vzs : List Char) (qx qy qz qvx qvy qvz : ℚ)
    (hep : epochSearch (block.length + 1) block = some g2)
    (had : adSearch ((String.mk (pyStripList g2)).data.length + 1)
        (String.mk (pyStripList g2)).data = some (y, tok, d, hh, mm, ss))
    (hmon : monthTable.lookup tok = none)
    (hdt : dtValid y 1 d hh mm ss = true)
    (hpos : tripleSearch ['X'] ['Y'] ['Z'] (block.length + 1) block = some (xs, ys, zs))
    (hvel : tripleSearch ['V', 'X'] ['V', 'Y'] ['V', 'Z'] (block.length + 1) block
        = some (vxs, vys, vzs))
    (hx : pyFloat (String.mk xs) = some qx) (hy2 : pyFloat (String.mk ys) = some qy)
    (hz : pyFloat (String.mk zs) = some qz) (hvx : pyFloat (String.mk vxs) = some qvx)
    (hvy : pyFloat (String.mk vys) = some qvy) (hvz : pyFloat (String.mk vzs) = some qvz) :
    monthsGet tok = 1
    ∧ blockToSample bodyId block
        = .sample ⟨bodyId, fmtDt y 1 d hh mm ss, qx, qy, qz, qvx, qvy, qvz⟩ := by
  have hm : monthsGet tok = 1 := by simp [monthsGet, hmon]
  refine ⟨hm, ?_⟩
  unfold blockToSample
  rw [hep, hpos, hvel]
  simp only [epochNormalize, had, hm, hdt, if_true]
  rw [hx, hy2, hz, hvx, hvy, hvz]

set_option maxRecDepth 100000 in
/-- Witness for C9: a block with month token "Foo" yields a sample with
a January epoch. -/
theorem horizons_unknown_month_defaults_to_january_witness :
    monthsGet "Foo" = 1
    ∧ blockToSample "earth"
        ("2451545.0 = A.D. 2000-Foo-01 12:00:00.0000 TDB\n X = 1 Y = 2 Z = 3\n VX= 1 VY= 2 VZ= 3").data
      = .sample ⟨"earth", fmtDt 2000 1 1 12 0 0, 1, 2, 3, 1, 2, 3⟩ := by
  exact horizons_unknown_month_defaults_to_january _ "earth"
    ("A.D. 2000-Foo-01 12:00:00.0000").data 2000 1 12 0 0 "Foo"
    "1".data "2".data "3".data "1".data "2".data "3".data 1 2 3 1 2 3
    (by decide) (by decide) (by decide) (by decide) (by decide) (by decide)
    (by decide) (by decide) (by decide) (by decide) (by decide) (by decide)

/-- The structured result dataclass `IngestionResult`. -/
structure IngestionResult where
  job_id : ℕ
  status : String
  samples_inserted : ℕ
  error_text : Option String
  deriving Repr, DecidableEq

/-- The pieces of the runner's environment: the filesystem (contents
keyed by resolved path) and path resolution (`Path.resolve`); a path is
a file iff its resolved form is present. -/
structure Env where
  files : List (String × String)
  resolve : String → String

/-- Lines 193–199 of `run_ingestion_job`: keep a payload-supplied
`file_id`; otherwise fetch the single most recent `horizons` registry
row (`nasa_file_list(..., limit=1)`) and use its id only when its
`local_path` equals the resolved source path. -/
def resolveSourceFileId (db : Db) (tenant : String) (fileId : Json)
    (resolvedPath : String) : Json :=
  if fileId.isNull then
    match (nasa_file_list db (some "horizons") tenant 1).find?
        (fun p => p.2.local_path == resolvedPath) with
    | some p => Json.num (natToQ p.1)
    | none => Json.null
  else fileId

/-- `NasaIngestionRunner.run_ingestion_job(job_id, body_id)` under
tenant `tenant` at time `now`.  The second component is `.ok result`
when the Python call returns, and `.error e` when an exception escapes
the call (only the payload-attribute accesses at lines 178–180 are
outside the `try`); the first component is the database state at
return/raise time. -/
def run_ingestion_job (env : Env) (db0 : Db) (job_id : ℕ) (body_id : String)
    (tenant : String) (now : ℕ) : Db × Except String IngestionResult :=
  match ingestion_job_start db0 job_id tenant now with
  | (db1, started) =>
    if !started then
      let status :=
        match ingestion_job_get db1 job_id tenant with
        | some j => j.status
        | none => "not_found"
      (db1, .ok ⟨job_id, status, 0, some "Job not startable"⟩)
    else
      match ingestion_job_get db1 job_id tenant with
      | none =>
        (ingestion_job_fail db1 job_id "Job record not found" tenant now,
         .ok ⟨job_id, "failed", 0, some "Job record not found"⟩)
      | some job =>
        let payload := decodePayload job.payload_json
        match resolveSource payload job.source with
        | .error e => (db1, .error e)
        | .ok source =>
          match jsonObjGet payload "file_id" with
          | .error e => (db1, .error e)
          | .ok fileId =>
            match resolveBodyId payload body_id with
            | .error e => (db1, .error e)
            | .ok bid =>
              if source = "" then
                (ingestion_job_fail db1 job_id "Missing source path in payload" tenant now,
                 .ok ⟨job_id, "failed", 0, some "Missing source"⟩)
              else
                match env.files.lookup (env.resolve source) with
                | none =>
                  (ingestion_job_fail db1 job_id ("File not found: " ++ source) tenant now,
                   .ok ⟨job_id, "failed", 0, some ("File not found: " ++ source)⟩)
                | some text =>
                  match parse_horizons_vectors text bid with
                  | none =>
                    (ingestion_job_fail db1 job_id "parse error" tenant now,
                     .ok ⟨job_id, "failed", 0, some "parse error"⟩)
                  | some [] =>
                    (ingestion_job_complete db1 job_id tenant now,
                     .ok ⟨job_id, "completed", 0, none⟩)
                  | some (s0 :: srest) =>
                    let sfid := resolveSourceFileId db1 tenant fileId (env.resolve source)
                    let db2 := (s0 :: srest).foldl
                      (fun d s => ephemeris_sample_insert d s.body_id s.epoch_utc
                        s.position_x s.position_y s.position_z
                        (some s.velocity_x) (some s.velocity_y) (some s.velocity_z)
                        (some "J2000") sfid tenant) db1
                    (ingestion_job_complete db2 job_id tenant now,
                     .ok ⟨job_id, "completed", (s0 :: srest).length, none⟩)

/-- Empty filesystem; identity path resolution. -/
def c2Env : Env := ⟨[], fun s => s⟩

/-- One pending job whose `payload_json` column is NULL. -/
def c2DbNull : Db :=
  ⟨[⟨"horizons", "/data/f", "pending", none, 0, none, none, none, "default", none⟩], [], []⟩

/-- One pending job whose `payload_json` is valid JSON but not an
object. -/
def c2DbArr : Db :=
  ⟨[⟨"horizons", "/data/f", "pending", some "[1, 2]", 0, none, none, none, "default", none⟩],
   [], []⟩

/-- C2: refutation by evaluation.  The payload-attribute accesses at
lines 178–180 precede the `try` block, so with a NULL `payload_json`
(or one decoding to a non-object such as a JSON array) the call raises
`AttributeError` after `start` succeeded, and the job is left in status
running — the exception is not converted to `fail`. -/
theorem run_ingestion_job_uncaught_payload_exception :
    (ingestion_job_start c2DbNull 1 "default" 7).2 = true
    ∧ (run_ingestion_job c2Env c2DbNull 1 "earth" "default" 7).2
        = Except.error "AttributeError: object has no attribute get"
    ∧ ((ingestion_job_get (run_ingestion_job c2Env c2DbNull 1 "earth" "default" 7).1
          1 "default").map (fun j => j.status) = some "running")
    ∧ (run_ingestion_job c2Env c2DbArr 1 "earth" "default" 7).2
        = Except.error "AttributeError: object has no attribute get"
    ∧ ((ingestion_job_get (run_ingestion_job c2Env c2DbArr 1 "earth" "default" 7).1
          1 "default").map (fun j => j.status) = some "running") := by
  exact ⟨rfl, rfl, rfl, rfl, rfl⟩

/-- A minimal single-block Horizons file. -/
def oneBlockHorizons : String :=
  "$$SOE\n 2451545.0 = A.D. 2000-Jan-01 12:00:00.0000 TDB\n X = 1 Y = 2 Z = 3\n VX= 1 VY= 2 VZ= 3\n$$EOE"

/-- Registry entry whose path matches the job's source. -/
def regRowA : NasaFileRow :=
  ⟨"horizons", none, "/data/h.txt", none, none, none, none, "default", none⟩

/-- A later registry entry with a different path. -/
def regRowB : NasaFileRow :=
  ⟨"horizons", none, "/data/other.txt", none, none, none, none, "default", none⟩

def c6Env : Env := ⟨[("/data/h.txt", oneBlockHorizons)], fun s => s⟩

/-- Job whose payload names the source; registry has the matching entry
(id 1) followed by a more recent non-matching one (id 2). -/
def c6Db : Db :=
  ⟨[⟨"horizons", "", "pending", some "\x7b\"source\": \"/data/h.txt\"\x7d", 0,
     none, none, none, "default", none⟩],
   [regRowA, regRowB], []⟩

/-- Same job; registry holds only the matching entry. -/
def c6DbMatch : Db :=
  ⟨[⟨"horizons", "", "pending", some "\x7b\"source\": \"/data/h.txt\"\x7d", 0,
     none, none, none, "default", none⟩],
   [regRowA], []⟩

/-- Same job with an explicit payload `file_id`. -/
def c6DbFid : Db :=
  ⟨[⟨"horizons", "", "pending",
     some "\x7b\"source\": \"/data/h.txt\", \"file_id\": 5\x7d", 0,
     none, none, none, "default", none⟩],
   [regRowA, regRowB], []⟩

/-- C6 counterexample: the registry contains a `horizons` entry (id 1)
whose `local_path` equals the resolved source, but because the code
fetches the registry with `limit=1` it only inspects the most recent
entry (id 2, different path); the run completes and the inserted sample
carries a NULL `source_file_id` instead of 1. -/
theorem run_ingestion_job_stale_registry_counterexample :
    ((run_ingestion_job c6Env c6Db 1 "earth" "default" 7).1.ephemeris.map
        (fun r => r.source_file_id.isNull) = [true])
    ∧ (run_ingestion_job c6Env c6Db 1 "earth" "default" 7).2
        = Except.ok ⟨1, "completed", 1, none⟩
    ∧ (c6Db.nasaFiles.map (fun r => (r.file_type, r.local_path))
        = [("horizons", "/data/h.txt"), ("horizons", "/data/other.txt")])
    ∧ c6Env.resolve "/data/h.txt" = "/data/h.txt" := by
  exact ⟨rfl, rfl, rfl, rfl⟩

/-- C6 (amended): a payload-supplied `file_id` is kept as the tag;
otherwise only the single most recent `horizons` registry entry (the
one with the highest id) is consulted: its id is used when its
`local_path` equals the resolved source path, and the tag is NULL
otherwise, even when an older entry matches.  The closed conjuncts
show the two tagging modes end to end. -/
theorem resolve_source_file_id_behavior (db : Db) (tenant : String)
    (fileId : Json) (path : String) :
    (fileId.isNull = false → resolveSourceFileId db tenant fileId path = fileId)
    ∧ (fileId.isNull = true →
        resolveSourceFileId db tenant fileId path
          = match (nasa_file_list db (some "horizons") tenant 1).head? with
            | some p => if p.2.local_path == path then Json.num (natToQ p.1) else Json.null
            | none => Json.null)
    ∧ ((nasa_file_list db (some "horizons") tenant 1).head?
        = ((((List.range db.nasaFiles.length).zip db.nasaFiles).map
              (fun p => (p.1 + 1, p.2))).filter
            (fun p => p.2.tenant_id == tenantNorm tenant
              && p.2.file_type == "horizons")).getLast?)
    ∧ ((run_ingestion_job c6Env c6DbFid 1 "earth" "default" 7).1.ephemeris.map
        (fun r => r.source_file_id) = [Json.num (natToQ 5)])
    ∧ ((run_ingestion_job c6Env c6DbMatch 1 "earth" "default" 7).1.ephemeris.map
        (fun r => r.source_file_id) = [Json.num (natToQ 1)]) := by
  refine ⟨?_, ?_, ?_, rfl, rfl⟩
  · intro h
    simp [resolveSourceFileId, h]
  · intro h
    simp only [resolveSourceFileId, h, if_true]
    cases hl : nasa_file_list db (some "horizons") tenant 1 with
    | nil => simp
    | cons p t =>
      have ht : t = [] := by
        have hlen : (nasa_file_list db (some "horizons") tenant 1).length ≤ 1 := by
          simp only [nasa_file_list]
          exact List.length_take_le _ _
        rw [hl] at hlen
        simpa using hlen
      subst ht
      simp only [List.find?, hl, List.head?_cons]
      cases hcm : p.2.local_path == path with
      | false => simp [hcm]
      | true => simp [hcm]
  · simp only [nasa_file_list]
    have h1 : ∀ (l : List (ℕ × NasaFileRow)), (l.take 1).head? = l.head? := by
      intro l; cases l <;> rfl
    rw [h1, List.head?_reverse]
    simp

/-- Witness for C6 (amended) at a concrete registry and file id. -/
theorem resolve_source_file_id_behavior_witness :
    resolveSourceFileId c6Db "default" (Json.num 5) "/data/h.txt" = Json.num 5
    ∧ resolveSourceFileId c6Db "default" Json.null "/data/h.txt" = Json.null := by
  constructor
  · exact (resolve_source_file_id_behavior c6Db "default" (Json.num 5) "/data/h.txt").1 rfl
  · have h := (resolve_source_file_id_behavior c6Db "default" Json.null "/data/h.txt").2.1 rfl
    rw [h]
    rfl
